import Mathlib

/-!
# buongiornissimo-bot: generation-and-broadcast pipeline

A shallow embedding of `src/main.go` (caption truncation, prompt generation,
image generation, multi-destination delivery and the orchestrating run) and the
properties of it that the specification states.

Conventions of the embedding:

* a Go `string` is its sequence of bytes, so `len` is `List.length` and slicing
  is `List.take` / `List.drop`;
* the external services (text generation, image generation, messaging) are a
  `World`: each call's result is a function of the request and of the history
  of events so far, so results may differ from one call to the next in any way;
* every function of the pipeline threads the history: it takes the events so
  far and returns its Go result together with the extended history;
* a Go function ends in one of three ways, see `Outcome`.
-/

namespace Buongiornissimo

/-! ## Strings -/

/-- A Go string: an immutable sequence of bytes. -/
abbrev GoString := List UInt8

/-- The bytes of a Go string literal (Go source text is UTF-8). -/
def lit (s : String) : GoString := s.data.flatMap String.utf8EncodeChar

/-! ## Caption truncation (`main.go` lines 121-131) -/

/-- The constant `maxCaptionLength` of `truncateCaption`. -/
def maxCaptionLength : Nat := 1024

/-- Embedding of `truncateCaption`: a caption of at most `maxCaptionLength` bytes is
returned as it is; a longer one is cut to `caption[:maxCaptionLength-3]` and
`"..."` is appended. -/
def truncateCaption (caption : GoString) : GoString :=
  if caption.length ≤ maxCaptionLength then
    caption
  else
    let truncated := caption.take (maxCaptionLength - 3)
    truncated ++ lit "..."

/-! ## Errors and outcomes -/

/-- A Go `error` value, kept as the chain `fmt.Errorf` builds: `mk msg` is an error
with message `msg` (what a library call returns, or `fmt.Errorf` without a verb);
`wrap msg inner` is `fmt.Errorf(msg + "%w", inner)`. -/
inductive GoError where
  | mk (msg : GoString)
  | wrap (msg : GoString) (inner : GoError)
  deriving DecidableEq, Repr

/-- The method `Error()`: the message of an error; `%w` prints the wrapped
error's message in place. -/
def GoError.Error : GoError → GoString
  | .mk msg => msg
  | .wrap msg inner => msg ++ inner.Error

/-- How a call of a Go function of the pipeline ends: it returns with a nil error
(`ok`), it returns with a non-nil error (`error`), or it does not return because the
run-time raised a panic (`panic`, here always a nil pointer dereference). -/
inductive Outcome (α : Type) where
  | ok (v : α)
  | error (err : GoError)
  | panic
  deriving DecidableEq, Repr

/-! ## `strconv.ParseInt(s, 10, 64)` -/

namespace strconv

/-- The two sentinel errors of `strconv`. -/
inductive Sentinel where
  | ErrSyntax
  | ErrRange
  deriving DecidableEq, Repr

/-- The type `*strconv.NumError`. -/
structure NumError where
  Func : GoString
  Num : GoString
  Err : Sentinel
  deriving DecidableEq, Repr

/-- The library helper `syntaxError(fn, str)`. -/
def syntaxError (fn str : GoString) : NumError := { Func := fn, Num := str, Err := .ErrSyntax }

/-- The library helper `rangeError(fn, str)`. -/
def rangeError (fn str : GoString) : NumError := { Func := fn, Num := str, Err := .ErrRange }

/-- The library constant `maxUint64 = 1<<64 - 1`. -/
def maxUint64 : Nat := 2 ^ 64 - 1

/-- The library helper `lower(c) = c | ('x' - 'X')`. -/
def lower (c : UInt8) : UInt8 := c ||| 0x20

/-- The conversion `int64(x)`: the value of `x` in two's complement on 64 bits. -/
def int64 (x : Int) : Int := (x + 2 ^ 63) % 2 ^ 64 - 2 ^ 63

/-- The digit loop of `ParseUint` for `base = 10` and `bitSize = 64`
(`cutoff = maxUint64/10 + 1`, `maxVal = 1<<64 - 1`, underscores are not accepted
because the base is not 0). `n` is a `uint64`: the product and the sum are taken
modulo `2^64` and the overflow tests are the library's own. -/
def ParseUint.loop (s0 : GoString) : GoString → Nat → Nat × Option NumError
  | [], n => (n, none)
  | c :: cs, n =>
    let cutoff := maxUint64 / 10 + 1
    let maxVal := 2 ^ 64 - 1
    let digit : Option Nat :=
      if 48 ≤ c.toNat ∧ c.toNat ≤ 57 then some (c.toNat - 48)
      else if 97 ≤ (lower c).toNat ∧ (lower c).toNat ≤ 122 then some ((lower c).toNat - 97 + 10)
      else none
    match digit with
    | none => (0, some (syntaxError (lit "ParseUint") s0))
    | some d =>
      if d ≥ 10 then (0, some (syntaxError (lit "ParseUint") s0))
      else if n ≥ cutoff then (maxVal, some (rangeError (lit "ParseUint") s0))
      else
        let n10 := (n * 10) % 2 ^ 64
        let n1 := (n10 + d) % 2 ^ 64
        if n1 < n10 ∨ n1 > maxVal then (maxVal, some (rangeError (lit "ParseUint") s0))
        else ParseUint.loop s0 cs n1

/-- Modelled from the spec: the identifier is parsed "into the destination's required
numeric form", a signed 64-bit integer (section 4.4 and section 6). The function that
does it, `strconv.ParseUint` of the Go standard library, is not under `src/`; this
is the library's algorithm at the only arguments the source uses, `base = 10` and
`bitSize = 64`. The result is the pair `(uint64, error)`. -/
def ParseUint (s : GoString) : Nat × Option NumError :=
  if s = [] then (0, some (syntaxError (lit "ParseUint") s))
  else ParseUint.loop s s 0

/-- Modelled from the spec: the identifier is parsed "into the destination's required
numeric form", a signed 64-bit integer (section 4.4 and section 6). The function that
does it, `strconv.ParseInt` of the Go standard library, is not under `src/`; this
is the library's algorithm at the only arguments the source uses, `base = 10` and
`bitSize = 64`: an optional sign, then `ParseUint`, then the range test against
`1 << 63`. The result is the pair `(int64, error)`. -/
def ParseInt (s : GoString) : Int × Option NumError :=
  match s with
  | [] => (0, some (syntaxError (lit "ParseInt") s))
  | c :: rest =>
    let s0 := s
    let neg := c = 45
    let s1 := if c = 43 then rest else if c = 45 then rest else s
    match ParseUint s1 with
    | (_, some { Func := _, Num := _, Err := .ErrSyntax }) =>
      (0, some { Func := lit "ParseInt", Num := s0, Err := .ErrSyntax })
    | (un, _) =>
      let cutoff := 2 ^ 63
      if ¬ neg ∧ un ≥ cutoff then (int64 (cutoff - 1), some (rangeError (lit "ParseInt") s0))
      else if neg ∧ un > cutoff then (int64 (- int64 cutoff), some (rangeError (lit "ParseInt") s0))
      else
        let n := int64 un
        (if neg then int64 (- n) else n, none)

end strconv

/-! ## The service libraries: request and response types -/

namespace genai

/-- Modelled from the spec: the client configuration of the generative-AI library
(section 3, "credentials for the ... generative-AI services"); the declaration is in
the library, not under `src/`. Only the field the source sets is kept. -/
structure ClientConfig where
  APIKey : GoString
  deriving DecidableEq, Repr

/-- Modelled from the spec: a content part of a text-generation response (section 6);
the declaration is in the library, not under `src/`. Only the field the source
reads is kept. -/
structure Part where
  Text : GoString
  deriving DecidableEq, Repr

/-- Modelled from the spec: a content, "a list of content parts" (section 6); the
declaration is in the library, not under `src/`. The parts are held by pointer,
so a part may be absent (`none` is the nil pointer). -/
structure Content where
  Parts : List (Option Part)
  Role : GoString
  deriving DecidableEq, Repr

/-- Modelled from the spec: a candidate of a text-generation response (section 6); the
declaration is in the library, not under `src/`. The content is held by pointer,
so it may be absent. -/
structure Candidate where
  Content : Option Content
  deriving DecidableEq, Repr

/-- Modelled from the spec: the text-generation response, a "list of candidates, each
with a list of content parts" (section 6); the declaration is in the library, not
under `src/`. The candidates are held by pointer. -/
structure GenerateContentResponse where
  Candidates : List (Option Candidate)
  deriving DecidableEq, Repr

/-- Modelled from the spec: the request option "count=1" of the image-generation
service (section 6); the declaration is in the library, not under `src/`. -/
structure GenerateImagesConfig where
  NumberOfImages : Int
  deriving DecidableEq, Repr

/-- Modelled from the spec: an image "optionally carrying a raw byte payload"
(section 6); the declaration is in the library, not under `src/`. -/
structure Image where
  ImageBytes : List UInt8
  deriving DecidableEq, Repr

/-- Modelled from the spec: a generated image (section 6); the declaration is in the
library, not under `src/`. The image is held by pointer: the source tests
`generatedImage.Image != nil`. -/
structure GeneratedImage where
  Image : Option Image
  deriving DecidableEq, Repr

/-- Modelled from the spec: the image-generation response, a "list of generated
images" (section 6); the declaration is in the library, not under `src/`. The
generated images are held by pointer. -/
structure GenerateImagesResponse where
  GeneratedImages : List (Option GeneratedImage)
  deriving DecidableEq, Repr

/-- The library constant `genai.RoleUser`. -/
def RoleUser : GoString := lit "user"

/-- Modelled from the spec: the request carries a "single user-role text prompt"
(section 6); `genai.NewContentFromText` is in the library, not under `src/`. -/
def NewContentFromText (text role : GoString) : Content :=
  { Parts := [some { Text := text }], Role := role }

end genai

namespace tgbotapi

/-- Modelled from the spec: the binary image payload and its file name of a send
operation (section 6); `tgbotapi.FileReader` is in the library, not under `src/`.
The reader is the bytes it will yield: the source builds a fresh
`bytes.NewReader(imageData)` for every send. -/
structure FileReader where
  Name : GoString
  Reader : List UInt8
  deriving DecidableEq, Repr

/-- Modelled from the spec: a send operation "takes {destination id, binary image
payload, filename, caption string}" (section 6); `tgbotapi.PhotoConfig` is in the
library, not under `src/`. -/
structure PhotoConfig where
  ChatID : Int
  File : FileReader
  Caption : GoString
  deriving DecidableEq, Repr

/-- Modelled from the spec: `tgbotapi.NewPhoto(chatID, file)` of the library builds
the send request for a destination and a payload, with an empty caption. -/
def NewPhoto (chatID : Int) (file : FileReader) : PhotoConfig :=
  { ChatID := chatID, File := file, Caption := [] }

end tgbotapi

/-! ## Configuration, events and the world -/

/-- The type `Config` (`main.go` lines 17-27). -/
structure Config where
  TelegramBotToken : GoString
  ChatIDs : List GoString
  AdminChatID : GoString
  GeminiAPIKey : GoString
  InitialPrompt : GoString
  TextModelID : GoString
  ImageModelID : GoString
  MessageCaption : GoString
  deriving DecidableEq, Repr

/-- An argument of a `log.Printf` call, kept unrendered. -/
inductive LogArg where
  | str (s : GoString)
  | int (n : Int)
  | err (e : GoError)
  | numErr (e : strconv.NumError)
  deriving DecidableEq, Repr

/-- What a run does that can be observed from outside: the calls it makes to the
service libraries, with their requests, and the lines it logs (format and
arguments of `log.Printf`, the text of `log.Println`). -/
inductive Event where
  | NewClient (cc : genai.ClientConfig)
  | GenerateContent (model : GoString) (contents : List genai.Content)
  | GenerateImages (model : GoString) (prompt : GoString) (cfg : genai.GenerateImagesConfig)
  | NewBotAPI (token : GoString)
  | Send (c : tgbotapi.PhotoConfig)
  | Log (format : GoString) (args : List LogArg)
  deriving DecidableEq, Repr

/-- The services a run talks to. Each field answers one library call; its first
argument is the history of events before the call, so the answer to a call may
depend on everything that happened earlier. `none` is a nil error. -/
structure World where
  NewClient : List Event → genai.ClientConfig → Option GoError
  GenerateContent :
    List Event → GoString → List genai.Content → Except GoError genai.GenerateContentResponse
  GenerateImages : List Event → GoString → GoString → genai.GenerateImagesConfig →
    Except GoError genai.GenerateImagesResponse
  NewBotAPI : List Event → GoString → Option GoError
  Send : List Event → tgbotapi.PhotoConfig → Option GoError

/-! ## The pipeline -/

/-- Embedding of `generateImagePrompt` (`main.go` lines 90-119): create the client,
build the request from the configured prompt and the fixed suffix, make one call to
the text-generation service, and read the text of the first part of the first
candidate. `resp.Candidates[0].Content.Parts` and `firstPart.Text` dereference
pointers; on a nil pointer the run-time panics. -/
def generateImagePrompt (w : World) (config : Config) (t : List Event) :
    Outcome GoString × List Event :=
  let cc : genai.ClientConfig := { APIKey := config.GeminiAPIKey }
  let t1 := t ++ [Event.NewClient cc]
  match w.NewClient t cc with
  | some err => (.error (.wrap (lit "failed to create Gemini client: ") err), t1)
  | none =>
    let fullPrompt := config.InitialPrompt ++
      lit ". Non includere generazione di testo nel prompt. Ritorna solo il prompt senza altro testo."
    let content := genai.NewContentFromText fullPrompt genai.RoleUser
    let t2 := t1 ++ [Event.GenerateContent config.TextModelID [content]]
    match w.GenerateContent t1 config.TextModelID [content] with
    | .error err => (.error (.wrap (lit "failed to generate content: ") err), t2)
    | .ok resp =>
      match resp.Candidates with
      | [] => (.error (.mk (lit "no content generated")), t2)
      | none :: _ => (.panic, t2)
      | some candidate :: _ =>
        match candidate.Content with
        | none => (.panic, t2)
        | some c =>
          match c.Parts with
          | [] => (.error (.mk (lit "no content generated")), t2)
          | none :: _ => (.panic, t2)
          | some firstPart :: _ =>
            if firstPart.Text ≠ [] then (.ok firstPart.Text, t2)
            else (.error (.mk (lit "unexpected response format")), t2)

/-- Embedding of `generateImage` (`main.go` lines 133-164): create the client, make
one call to the image-generation service asking for one image, and return the bytes
of the first generated image. `generatedImage.Image` dereferences a pointer. -/
def generateImage (w : World) (config : Config) (prompt : GoString) (t : List Event) :
    Outcome (List UInt8) × List Event :=
  let cc : genai.ClientConfig := { APIKey := config.GeminiAPIKey }
  let t1 := t ++ [Event.NewClient cc]
  match w.NewClient t cc with
  | some err => (.error (.wrap (lit "failed to create Gemini client: ") err), t1)
  | none =>
    let imageConfig : genai.GenerateImagesConfig := { NumberOfImages := 1 }
    let fullPrompt := prompt ++ lit " Ritorna solo il prompt senza altro testo."
    let t2 := t1 ++ [Event.GenerateImages config.ImageModelID fullPrompt imageConfig]
    match w.GenerateImages t1 config.ImageModelID fullPrompt imageConfig with
    | .error err => (.error (.wrap (lit "failed to generate image: ") err), t2)
    | .ok resp =>
      match resp.GeneratedImages with
      | [] => (.error (.mk (lit "no image generated")), t2)
      | none :: _ => (.panic, t2)
      | some generatedImage :: _ =>
        match generatedImage.Image with
        | some image =>
          if image.ImageBytes.length > 0 then (.ok image.ImageBytes, t2)
          else (.error (.mk (lit "no image data found in response")), t2)
        | none => (.error (.mk (lit "no image data found in response")), t2)

/-- The loop `for _, chatIDStr := range config.ChatIDs` of `sendImageToChats`
(`main.go` lines 174-198), over the identifiers still to process. An identifier
that does not parse is logged and skipped; a send that fails is logged and the
loop goes on. -/
def sendImageToChats.loop (w : World) (config : Config) (imageData : List UInt8) :
    List GoString → List Event → List Event
  | [], t => t
  | chatIDStr :: rest, t =>
    match strconv.ParseInt chatIDStr with
    | (_, some err) =>
      sendImageToChats.loop w config imageData rest
        (t ++ [Event.Log (lit "Invalid chat ID %s: %v") [.str chatIDStr, .numErr err]])
    | (chatID, none) =>
      let t1 := t ++ [Event.Log (lit "Sending image to chat: %d") [.int chatID]]
      let photoReader := imageData
      let photoConfig := tgbotapi.NewPhoto chatID
        { Name := lit "buongiornissimo.jpg", Reader := photoReader }
      let photoConfig := { photoConfig with Caption := truncateCaption config.MessageCaption }
      let t2 := t1 ++ [Event.Send photoConfig]
      match w.Send t1 photoConfig with
      | some err =>
        sendImageToChats.loop w config imageData rest
          (t2 ++ [Event.Log (lit "Failed to send image to chat %d: %v") [.int chatID, .err err]])
      | none =>
        sendImageToChats.loop w config imageData rest
          (t2 ++ [Event.Log (lit "Successfully sent image to chat: %d") [.int chatID]])

/-- Embedding of `sendImageToChats` (`main.go` lines 166-227): create the bot client
(the only failure that is returned), run the loop over the regular chats, then
send to the admin chat when one is configured and its identifier parses. -/
def sendImageToChats (w : World) (config : Config) (imageData : List UInt8)
    (fullPrompt : GoString) (t : List Event) : Outcome Unit × List Event :=
  let t0 := t ++ [Event.NewBotAPI config.TelegramBotToken]
  match w.NewBotAPI t config.TelegramBotToken with
  | some err => (.error (.wrap (lit "failed to create Telegram bot: ") err), t0)
  | none =>
    let t1 := sendImageToChats.loop w config imageData config.ChatIDs t0
    if config.AdminChatID ≠ [] then
      match strconv.ParseInt config.AdminChatID with
      | (_, some err) =>
        (.ok (), t1 ++ [Event.Log (lit "Invalid admin chat ID %s: %v")
          [.str config.AdminChatID, .numErr err]])
      | (adminChatID, none) =>
        let t2 := t1 ++ [Event.Log (lit "Sending image to admin chat: %d") [.int adminChatID]]
        let photoReader := imageData
        let photoConfig := tgbotapi.NewPhoto adminChatID
          { Name := lit "buongiornissimo.jpg", Reader := photoReader }
        let caption := lit "Generated with prompt: " ++ fullPrompt
        let photoConfig := { photoConfig with Caption := truncateCaption caption }
        let t3 := t2 ++ [Event.Send photoConfig]
        match w.Send t2 photoConfig with
        | some err =>
          (.ok (), t3 ++ [Event.Log (lit "Failed to send image to admin chat %d: %v")
            [.int adminChatID, .err err]])
        | none =>
          (.ok (), t3 ++ [Event.Log (lit "Successfully sent image to admin chat: %d")
            [.int adminChatID]])
    else
      (.ok (), t1)

/-- Embedding of `runBuongiornissimoBot` (`main.go` lines 229-266): log the start,
generate the prompt, generate the image, send it; the first stage that returns an
error ends the run with that error wrapped in the name of the stage. A panic of a
stage is a panic of the run. -/
def runBuongiornissimoBot (w : World) (config : Config) (t : List Event) :
    Outcome Unit × List Event :=
  let admin : Int := if config.AdminChatID ≠ [] then 1 else 0
  let totalChats : Int := config.ChatIDs.length + admin
  let t0 := t ++ [Event.Log (lit "Starting buongiornissimo bot for %d chats (%d regular + %d admin)")
    [.int totalChats, .int config.ChatIDs.length, .int admin]]
  match generateImagePrompt w config t0 with
  | (.panic, t1) => (.panic, t1)
  | (.error err, t1) => (.error (.wrap (lit "failed to generate image prompt: ") err), t1)
  | (.ok prompt, t1) =>
    let t2 := t1 ++ [Event.Log (lit "Generated prompt: %s") [.str prompt]]
    match generateImage w config prompt t2 with
    | (.panic, t3) => (.panic, t3)
    | (.error err, t3) => (.error (.wrap (lit "failed to generate image: ") err), t3)
    | (.ok imageData, t3) =>
      let t4 := t3 ++ [Event.Log (lit "Generated image of %d bytes") [.int imageData.length]]
      match sendImageToChats w config imageData prompt t4 with
      | (.panic, t5) => (.panic, t5)
      | (.error err, t5) => (.error (.wrap (lit "failed to send images: ") err), t5)
      | (.ok _, t5) =>
        (.ok (), t5 ++ [Event.Log (lit "Successfully sent images to all chats") []])

/-! ## Reading a history -/

/-- The send requests of a history, in the order they were made. -/
def sendRequests (t : List Event) : List tgbotapi.PhotoConfig :=
  t.filterMap fun e => match e with
    | .Send c => some c
    | _ => none

/-- An event is a call to the image-generation service. -/
def Event.isImageCall : Event → Bool
  | .GenerateImages _ _ _ => true
  | _ => false

/-- An event is a delivery call: creating the messaging client or sending. -/
def Event.isDeliveryCall : Event → Bool
  | .NewBotAPI _ => true
  | .Send _ => true
  | _ => false

/-- The value an identifier parses to, when `strconv.ParseInt` returns no error. -/
def parsedID (s : GoString) : Option Int :=
  match strconv.ParseInt s with
  | (n, none) => some n
  | (_, some _) => none

/-- The send request the source builds for a regular chat: the image under the file
name `buongiornissimo.jpg` and the truncated configured caption. -/
def regularRequest (config : Config) (imageData : List UInt8) (chatID : Int) :
    tgbotapi.PhotoConfig :=
  { ChatID := chatID
    File := { Name := lit "buongiornissimo.jpg", Reader := imageData }
    Caption := truncateCaption config.MessageCaption }

/-- The send request the source builds for the admin chat: the image under the same
file name and the truncated caption that carries the full prompt. -/
def adminRequest (imageData : List UInt8) (fullPrompt : GoString) (adminChatID : Int) :
    tgbotapi.PhotoConfig :=
  { ChatID := adminChatID
    File := { Name := lit "buongiornissimo.jpg", Reader := imageData }
    Caption := truncateCaption (lit "Generated with prompt: " ++ fullPrompt) }

/-- The regular sends a configuration calls for: one request for each configured
identifier that parses, in configured order. -/
def regularRequests (config : Config) (imageData : List UInt8) : List tgbotapi.PhotoConfig :=
  (config.ChatIDs.filterMap parsedID).map (regularRequest config imageData)

/-- The admin sends a configuration calls for: one request when an admin identifier
is configured and parses, none otherwise. -/
def adminRequests (config : Config) (imageData : List UInt8) (fullPrompt : GoString) :
    List tgbotapi.PhotoConfig :=
  if config.AdminChatID ≠ [] then
    match parsedID config.AdminChatID with
    | some adminChatID => [adminRequest imageData fullPrompt adminChatID]
    | none => []
  else []

/-- How `sendImageToChats` dealt with one destination, as the history shows it: it
logged a regular identifier as invalid and went on without a send, or it attempted
a send. -/
inductive Handling where
  | skipped (chatIDStr : GoString) (err : strconv.NumError)
  | sent (c : tgbotapi.PhotoConfig)
  deriving DecidableEq, Repr

/-- The handlings a history shows, in order: every send request, and every line
`Invalid chat ID %s: %v` with the identifier and the parse error it was logged
with. -/
def handlings (t : List Event) : List Handling :=
  t.filterMap fun e => match e with
    | .Send c => some (.sent c)
    | .Log format [.str chatIDStr, .numErr err] =>
      if format = lit "Invalid chat ID %s: %v" then some (.skipped chatIDStr err) else none
    | _ => none

/-- The handling a configured regular identifier calls for: a send to the parsed id
when `strconv.ParseInt` returns no error, the invalid-identifier line with the
parse error otherwise. -/
def regularHandling (config : Config) (imageData : List UInt8) (chatIDStr : GoString) :
    Handling :=
  match strconv.ParseInt chatIDStr with
  | (chatID, none) => .sent (regularRequest config imageData chatID)
  | (_, some err) => .skipped chatIDStr err

/-- The line `runBuongiornissimoBot` logs first. -/
def startLog (config : Config) : Event :=
  let admin : Int := if config.AdminChatID ≠ [] then 1 else 0
  Event.Log (lit "Starting buongiornissimo bot for %d chats (%d regular + %d admin)")
    [.int (config.ChatIDs.length + admin), .int config.ChatIDs.length, .int admin]

/-- The line `runBuongiornissimoBot` logs after the prompt stage. -/
def promptLog (prompt : GoString) : Event :=
  Event.Log (lit "Generated prompt: %s") [.str prompt]

/-- The line `runBuongiornissimoBot` logs after the image stage. -/
def imageLog (imageData : List UInt8) : Event :=
  Event.Log (lit "Generated image of %d bytes") [.int imageData.length]

/-- The request `generateImagePrompt` sends to the text-generation service. -/
def promptRequest (config : Config) : List genai.Content :=
  [genai.NewContentFromText (config.InitialPrompt ++
    lit ". Non includere generazione di testo nel prompt. Ritorna solo il prompt senza altro testo.")
    genai.RoleUser]

/-- The prompt `generateImage` sends to the image-generation service. -/
def imageRequest (prompt : GoString) : GoString :=
  prompt ++ lit " Ritorna solo il prompt senza altro testo."

/-! ## Worlds used as concrete inputs -/

/-- A world in which every call succeeds: the text service answers `prompt`, the
image service answers `image`. -/
def World.allOk (prompt : GoString) (image : List UInt8) : World where
  NewClient := fun _ _ => none
  GenerateContent := fun _ _ _ =>
    .ok { Candidates := [some { Content := some { Parts := [some { Text := prompt }], Role := lit "model" } }] }
  GenerateImages := fun _ _ _ _ =>
    .ok { GeneratedImages := [some { Image := some { ImageBytes := image } }] }
  NewBotAPI := fun _ _ => none
  Send := fun _ _ => none

/-- The world `allOk` except that every send fails with a transport error. -/
def World.sendsFail (prompt : GoString) (image : List UInt8) : World :=
  { World.allOk prompt image with Send := fun _ _ => some (.mk (lit "transport error")) }

/-- A configuration for the concrete inputs: the given regular and admin
identifiers, the default caption and model identifiers of `loadConfig`. -/
def exampleConfig (chatIDs : List GoString) (adminChatID : GoString) : Config where
  TelegramBotToken := lit "token"
  ChatIDs := chatIDs
  AdminChatID := adminChatID
  GeminiAPIKey := lit "key"
  InitialPrompt := lit "Genera un prompt"
  TextModelID := lit "gemini-2.5-flash-lite"
  ImageModelID := lit "imagen-4.0-generate-001"
  MessageCaption := lit "Buongiornissimo ☕"

/-- The world `allOk` except that the text service answers with the given response. -/
def World.textAnswers (resp : genai.GenerateContentResponse) : World :=
  { World.allOk [] [0xff] with GenerateContent := fun _ _ _ => .ok resp }

/-- The world `allOk` except that the image service answers with the given response. -/
def World.imageAnswers (prompt : GoString) (resp : genai.GenerateImagesResponse) : World :=
  { World.allOk prompt [] with GenerateImages := fun _ _ _ _ => .ok resp }

/-- A text-generation response with one candidate that carries no content, as the
service returns when it withholds the text of a candidate. -/
def absentContentResponse : genai.GenerateContentResponse :=
  { Candidates := [some { Content := none }] }

/-- Regular identifiers `["100", "not-a-number", "200"]`, no admin identifier. -/
def skipScenario : Config :=
  exampleConfig [lit "100", lit "not-a-number", lit "200"] []

/-- No regular identifier, admin identifier `"999"`. -/
def adminScenario : Config :=
  exampleConfig [] (lit "999")

/-! ## Decimal numerals, stated without machine arithmetic -/

/-- A byte is an ASCII decimal digit, `'0'` to `'9'`. -/
def isDigit (c : UInt8) : Bool := decide (48 ≤ c.toNat ∧ c.toNat ≤ 57)

/-- The natural number a string of decimal digits denotes, most significant digit
first, after the digits that gave `acc`. No bound applies. -/
def decimalValue (acc : Nat) : GoString → Nat
  | [] => acc
  | c :: cs => decimalValue (10 * acc + (c.toNat - 48)) cs

/-- A base-10 signed 64-bit integer, as the specification words the numeric form of
a destination: an optional sign `+` or `-`, then one or more decimal digits, whose
value lies in `[-2^63, 2^63 - 1]`. The value when the string is one, `none`
otherwise. -/
def decimalInt64 (s : GoString) : Option Int :=
  let neg := s.head? = some 45
  let digits := if s.head? = some 43 ∨ s.head? = some 45 then s.tail else s
  if digits ≠ [] ∧ digits.all isDigit then
    let v : Int := if neg then - (decimalValue 0 digits : Int) else decimalValue 0 digits
    if - 2 ^ 63 ≤ v ∧ v < 2 ^ 63 then some v else none
  else none

/-! ## The result of prompt generation, as the specification words it -/

/-- No nil pointer lies on the path `generateImagePrompt` reads: the first candidate,
when there is one, is present and so is its content, and the first part of that
content, when there is one, is present. -/
def pointersPresent (resp : genai.GenerateContentResponse) : Bool :=
  match resp.Candidates with
  | [] => true
  | none :: _ => false
  | some candidate :: _ =>
    match candidate.Content with
    | none => false
    | some c =>
      match c.Parts with
      | none :: _ => false
      | _ => true

/-- The content parts of the first candidate of a response; none when there is no
candidate or the first candidate carries no content. -/
def firstCandidateParts (resp : genai.GenerateContentResponse) : List (Option genai.Part) :=
  match resp.Candidates.head? with
  | some (some candidate) =>
    match candidate.Content with
    | some c => c.Parts
    | none => []
  | _ => []

/-- The result of prompt generation for a response, in the words of the
specification: the error `no content generated` when there are zero candidates or
the first candidate has zero content parts; the error `unexpected response format`
when the first part carries no text; otherwise the text of the first part. -/
def expectedPromptResult (resp : genai.GenerateContentResponse) : Outcome GoString :=
  match firstCandidateParts resp with
  | [] => .error (.mk (lit "no content generated"))
  | some part :: _ =>
    if part.Text = [] then .error (.mk (lit "unexpected response format")) else .ok part.Text
  | none :: _ => .error (.mk (lit "unexpected response format"))

/-! ## Caption truncation: lemmas -/


theorem lit_dots_length : (lit "...").length = 3 := by decide

theorem truncateCaption_length_le (s : GoString) :
    (truncateCaption s).length ≤ maxCaptionLength := by
  unfold truncateCaption
  split
  · assumption
  · simp only [List.length_append, List.length_take, lit_dots_length, maxCaptionLength] at *
    omega

/-- C1: a caption of at most 1024 bytes, the empty one and one of exactly 1024
bytes included, is returned unchanged by `truncateCaption`. -/
theorem truncateCaption_short (s : GoString) (h : s.length ≤ 1024) :
    truncateCaption s = s := by
  unfold truncateCaption maxCaptionLength
  simp [h]

/-- C1 at concrete inputs: the empty caption, the default caption of 19 bytes and
a caption of exactly 1024 bytes come back unchanged. -/
theorem truncateCaption_short_witness :
    truncateCaption [] = [] ∧
    truncateCaption (lit "Buongiornissimo ☕") = lit "Buongiornissimo ☕" ∧
    (List.replicate 1024 (65 : UInt8)).length = 1024 ∧
    truncateCaption (List.replicate 1024 65) = List.replicate 1024 65 :=
  ⟨truncateCaption_short [] (by decide),
   truncateCaption_short _ (by decide),
   List.length_replicate _ _,
   truncateCaption_short _ (le_of_eq (List.length_replicate _ _))⟩

/-- C2: a caption of more than 1024 bytes is cut to its first 1021 bytes followed by
`"..."`; the result has exactly 1024 bytes and ends with `"..."`. -/
theorem truncateCaption_long (s : GoString) (h : s.length > 1024) :
    truncateCaption s = s.take 1021 ++ lit "..." ∧
    (truncateCaption s).length = 1024 ∧
    lit "..." <:+ truncateCaption s := by
  have hne : ¬ s.length ≤ 1024 := by omega
  have h1 : truncateCaption s = s.take 1021 ++ lit "..." := by
    unfold truncateCaption maxCaptionLength
    simp only [hne, if_false]
  refine ⟨h1, ?_, ?_⟩
  · rw [h1, List.length_append, List.length_take, lit_dots_length]
    omega
  · rw [h1]
    exact List.suffix_append _ _

/-- C2 at a concrete input: 1025 bytes `A` become 1021 bytes `A` and `"..."`. -/
theorem truncateCaption_long_witness :
    (List.replicate 1025 (65 : UInt8)).length > 1024 ∧
    truncateCaption (List.replicate 1025 65) = List.replicate 1021 65 ++ [46, 46, 46] ∧
    (truncateCaption (List.replicate 1025 65)).length = 1024 := by
  have hlen : (List.replicate 1025 (65 : UInt8)).length > 1024 := by
    rw [List.length_replicate]; decide
  have h := truncateCaption_long (List.replicate 1025 65) hlen
  refine ⟨hlen, ?_, h.2.1⟩
  rw [h.1, List.take_replicate]
  rfl

/-- C3: `truncateCaption` is idempotent. -/
theorem truncateCaption_idempotent (s : GoString) :
    truncateCaption (truncateCaption s) = truncateCaption s := by
  have h := truncateCaption_length_le s
  generalize truncateCaption s = r at h ⊢
  unfold truncateCaption
  simp only [h, if_true]

/-! ## `strconv.ParseInt` against the decimal numerals -/

theorem decimalValue_cons (acc : Nat) (c : UInt8) (cs : GoString) :
    decimalValue acc (c :: cs) = decimalValue (10 * acc + (c.toNat - 48)) cs := rfl

theorem decimalValue_ge (cs : GoString) : ∀ acc, acc ≤ decimalValue acc cs := by
  induction cs with
  | nil => intro acc; exact le_refl _
  | cons c cs ih =>
    intro acc
    rw [decimalValue_cons]
    exact le_trans (by omega) (ih (10 * acc + (c.toNat - 48)))

theorem cutoff_eq : strconv.maxUint64 / 10 + 1 = 1844674407370955162 := by decide

theorem two_pow_64 : (2 : Nat) ^ 64 = 18446744073709551616 := by norm_num

/-- One step of the digit loop on a byte that is not a decimal digit. -/
theorem ParseUint_loop_cons_other (s0 : GoString) (c : UInt8) (rest : GoString) (n : Nat)
    (hd : ¬ (48 ≤ c.toNat ∧ c.toNat ≤ 57)) :
    strconv.ParseUint.loop s0 (c :: rest) n =
      (0, some (strconv.syntaxError (lit "ParseUint") s0)) := by
  rw [strconv.ParseUint.loop]
  simp only [hd, if_false]
  by_cases hl : 97 ≤ (strconv.lower c).toNat ∧ (strconv.lower c).toNat ≤ 122
  · have h10 : (strconv.lower c).toNat - 97 + 10 ≥ 10 := by omega
    simp only [hl, and_self, if_true, h10]
  · simp only [hl, if_false]

/-- One step of the digit loop on a decimal digit. -/
theorem ParseUint_loop_cons_digit (s0 : GoString) (c : UInt8) (rest : GoString) (n : Nat)
    (hd : 48 ≤ c.toNat ∧ c.toNat ≤ 57) :
    strconv.ParseUint.loop s0 (c :: rest) n =
      if n ≥ 1844674407370955162 ∨ n * 10 + (c.toNat - 48) ≥ 18446744073709551616 then
        (18446744073709551615, some (strconv.rangeError (lit "ParseUint") s0))
      else strconv.ParseUint.loop s0 rest (10 * n + (c.toNat - 48)) := by
  rw [strconv.ParseUint.loop]
  have h10 : ¬ (c.toNat - 48 ≥ 10) := by omega
  simp only [hd, and_self, if_true, h10, if_false, cutoff_eq, two_pow_64]
  by_cases hcut : n ≥ 1844674407370955162
  · rw [if_pos hcut, if_pos (Or.inl hcut)]
  · rw [if_neg hcut]
    by_cases hover : n * 10 + (c.toNat - 48) ≥ 18446744073709551616
    · have hwrap : (n * 10 % 18446744073709551616 + (c.toNat - 48)) % 18446744073709551616 <
          n * 10 % 18446744073709551616 ∨
          (n * 10 % 18446744073709551616 + (c.toNat - 48)) % 18446744073709551616 >
            18446744073709551616 - 1 := by
        left; omega
      rw [if_pos hwrap, if_pos (Or.inr hover)]
    · have hn1 : (n * 10 % 18446744073709551616 + (c.toNat - 48)) % 18446744073709551616 =
          10 * n + (c.toNat - 48) := by omega
      have hwrap : ¬ ((n * 10 % 18446744073709551616 + (c.toNat - 48)) % 18446744073709551616 <
          n * 10 % 18446744073709551616 ∨
          (n * 10 % 18446744073709551616 + (c.toNat - 48)) % 18446744073709551616 >
            18446744073709551616 - 1) := by
        omega
      have hnot : ¬ (n ≥ 1844674407370955162 ∨
          n * 10 + (c.toNat - 48) ≥ 18446744073709551616) := by omega
      rw [if_neg hwrap, if_neg hnot, hn1]

/-- The digit loop of `ParseUint`, started below `2^64`: on digits whose value stays
below `2^64` it returns that value; otherwise it returns an error, which is a syntax
error or a range error with the value `2^64 - 1`. -/
theorem ParseUint_loop_spec (s0 : GoString) (cs : GoString) :
    ∀ n, n < 18446744073709551616 →
      (cs.all isDigit = true ∧ decimalValue n cs < 18446744073709551616 →
        strconv.ParseUint.loop s0 cs n = (decimalValue n cs, none)) ∧
      (¬ (cs.all isDigit = true ∧ decimalValue n cs < 18446744073709551616) →
        ∃ v e, strconv.ParseUint.loop s0 cs n = (v, some e) ∧
          (e.Err = .ErrSyntax ∨ (e.Err = .ErrRange ∧ v = 18446744073709551615))) := by
  induction cs with
  | nil =>
    intro n hn
    exact ⟨fun _ => rfl, fun h => absurd ⟨rfl, hn⟩ h⟩
  | cons c rest ih =>
    intro n hn
    by_cases hd : 48 ≤ c.toNat ∧ c.toNat ≤ 57
    · have hdig : isDigit c = true := by simp [isDigit, hd]
      have hmono := decimalValue_ge rest (10 * n + (c.toNat - 48))
      rw [ParseUint_loop_cons_digit s0 c rest n hd, decimalValue_cons, List.all_cons, hdig,
        Bool.true_and]
      by_cases hover : n ≥ 1844674407370955162 ∨
          n * 10 + (c.toNat - 48) ≥ 18446744073709551616
      · rw [if_pos hover]
        constructor
        · intro h
          exfalso
          have := h.2
          omega
        · intro _
          exact ⟨_, _, rfl, Or.inr ⟨rfl, rfl⟩⟩
      · rw [if_neg hover]
        exact ih (10 * n + (c.toNat - 48)) (by omega)
    · have hdig : isDigit c = false := by simp [isDigit, hd]
      rw [ParseUint_loop_cons_other s0 c rest n hd]
      constructor
      · intro h
        simp [hdig] at h
      · intro _
        exact ⟨_, _, rfl, Or.inl rfl⟩

theorem int64_of_range (x : Int) (h1 : -9223372036854775808 ≤ x)
    (h2 : x < 9223372036854775808) : strconv.int64 x = x := by
  unfold strconv.int64
  norm_num
  omega

theorem int64_min : strconv.int64 9223372036854775808 = -9223372036854775808 := by
  unfold strconv.int64
  norm_num

/-- The value `ParseInt` computes for a negative numeral, wrap-around included. -/
theorem int64_neg_int64 (v : Nat) (h : v ≤ 9223372036854775808) :
    strconv.int64 (- strconv.int64 (v : Int)) = - (v : Int) := by
  rcases Nat.lt_or_ge v 9223372036854775808 with hlt | hge
  · rw [int64_of_range (v : Int) (by omega) (by omega)]
    exact int64_of_range _ (by omega) (by omega)
  · have hv : v = 9223372036854775808 := by omega
    subst hv
    have h1 : ((9223372036854775808 : Nat) : Int) = 9223372036854775808 := by norm_num
    rw [h1, int64_min]
    norm_num
    exact int64_min

/-- What `ParseInt` returns, as an optional value, from what `ParseUint` returned on
the string without its sign. -/
theorem parsedID_cons (c : UInt8) (rest : GoString) (v : Nat)
    (r : Option strconv.NumError)
    (hpu : strconv.ParseUint (if c = 43 then rest else if c = 45 then rest else c :: rest) =
      (v, r))
    (hr : ∀ e, r = some e → e.Err = .ErrSyntax ∨ (e.Err = .ErrRange ∧ v = 18446744073709551615)) :
    parsedID (c :: rest) =
      if r = none then
        if c = 45 then (if v ≤ 9223372036854775808 then some (- (v : Int)) else none)
        else (if v < 9223372036854775808 then some (v : Int) else none)
      else none := by
  have hp63 : (2 : Nat) ^ 63 = 9223372036854775808 := by norm_num
  unfold parsedID
  rw [strconv.ParseInt]
  simp only [hpu, hp63]
  rcases r with _ | ⟨f, m, k⟩
  · simp only [if_true]
    by_cases hneg : c = 45
    · simp only [hneg, if_true, not_true_eq_false, false_and, if_false, true_and]
      by_cases hle : v ≤ 9223372036854775808
      · have h1 : ¬ (v > 9223372036854775808) := by omega
        simp only [h1, if_false, hle, if_true, int64_neg_int64 v hle]
      · have h1 : v > 9223372036854775808 := by omega
        simp only [h1, if_true, hle, if_false]
    · simp only [hneg, if_false, not_false_eq_true, true_and, false_and]
      by_cases hlt : v < 9223372036854775808
      · have h1 : ¬ (v ≥ 9223372036854775808) := by omega
        simp only [h1, if_false, hlt, if_true,
          int64_of_range (v : Int) (by omega) (by omega)]
      · have h1 : v ≥ 9223372036854775808 := by omega
        simp only [h1, if_true, hlt, if_false]
  · simp only [reduceCtorEq, if_false]
    cases k with
    | ErrSyntax => rfl
    | ErrRange =>
      have hv2 : v = 18446744073709551615 := by
        rcases hr _ rfl with h | h
        · simp at h
        · exact h.2
      subst hv2
      by_cases hneg : c = 45
      · simp [hneg]
      · simp [hneg]

/-- The decimal numeral of a non-empty string, by its first byte. -/
theorem decimalInt64_cons (c : UInt8) (rest : GoString) :
    decimalInt64 (c :: rest) =
      if (if c = 43 then rest else if c = 45 then rest else c :: rest) ≠ [] ∧
          (if c = 43 then rest else if c = 45 then rest else c :: rest).all isDigit = true then
        if c = 45 then
          (if decimalValue 0 (if c = 43 then rest else if c = 45 then rest else c :: rest) ≤
              9223372036854775808 then
            some (- (decimalValue 0
              (if c = 43 then rest else if c = 45 then rest else c :: rest) : Int))
          else none)
        else
          (if decimalValue 0 (if c = 43 then rest else if c = 45 then rest else c :: rest) <
              9223372036854775808 then
            some (decimalValue 0
              (if c = 43 then rest else if c = 45 then rest else c :: rest) : Int)
          else none)
      else none := by
  have hdigits : (if (c :: rest).head? = some 43 ∨ (c :: rest).head? = some 45 then
      (c :: rest).tail else c :: rest) =
      (if c = 43 then rest else if c = 45 then rest else c :: rest) := by
    by_cases h43 : c = 43
    · simp [h43]
    · by_cases h45 : c = 45
      · simp [h45]
      · simp [h43, h45]
  unfold decimalInt64
  simp only [hdigits]
  generalize (if c = 43 then rest else if c = 45 then rest else c :: rest) = digits
  by_cases hcond : digits ≠ [] ∧ digits.all isDigit = true
  · rw [if_pos hcond, if_pos hcond]
    by_cases hneg : c = 45
    · subst hneg
      simp only [List.head?_cons, if_true]
      by_cases hle : decimalValue 0 digits ≤ 9223372036854775808
      · have hr : -2 ^ 63 ≤ -(decimalValue 0 digits : Int) ∧
            -(decimalValue 0 digits : Int) < 2 ^ 63 := by
          constructor <;> norm_num <;> omega
        rw [if_pos hr, if_pos hle]
      · have hr : ¬ (-2 ^ 63 ≤ -(decimalValue 0 digits : Int) ∧
            -(decimalValue 0 digits : Int) < 2 ^ 63) := by
          norm_num
          intro h
          omega
        rw [if_neg hr, if_neg hle]
    · have hhead : ¬ ((c :: rest).head? = some 45) := by simp [hneg]
      simp only [hhead, hneg, if_false]
      by_cases hlt : decimalValue 0 digits < 9223372036854775808
      · have hr : -2 ^ 63 ≤ (decimalValue 0 digits : Int) ∧
            (decimalValue 0 digits : Int) < 2 ^ 63 := by
          constructor <;> norm_num <;> omega
        rw [if_pos hr, if_pos hlt]
      · have hr : ¬ (-2 ^ 63 ≤ (decimalValue 0 digits : Int) ∧
            (decimalValue 0 digits : Int) < 2 ^ 63) := by
          norm_num
          intro _
          omega
        rw [if_neg hr, if_neg hlt]
  · rw [if_neg hcond, if_neg hcond]

/-- The value `strconv.ParseInt` parses an identifier to is the value of the identifier
as a decimal numeral of a signed 64-bit integer. -/
theorem parsedID_eq_decimalInt64 (s : GoString) : parsedID s = decimalInt64 s := by
  cases s with
  | nil => rfl
  | cons c rest =>
    rw [decimalInt64_cons]
    by_cases hnil : (if c = 43 then rest else if c = 45 then rest else c :: rest) = []
    · have hpu : strconv.ParseUint (if c = 43 then rest else if c = 45 then rest else c :: rest) =
          (0, some (strconv.syntaxError (lit "ParseUint") [])) := by
        rw [hnil]; rfl
      rw [parsedID_cons c rest 0 _ hpu (fun e he => by
        simp only [Option.some.injEq] at he
        subst he
        exact Or.inl rfl)]
      simp [hnil]
    · generalize hs1 : (if c = 43 then rest else if c = 45 then rest else c :: rest) = s1
        at hnil ⊢
      have hpu0 : strconv.ParseUint s1 = strconv.ParseUint.loop s1 s1 0 := by
        unfold strconv.ParseUint
        rw [if_neg hnil]
      have hspec := ParseUint_loop_spec s1 s1 0 (by norm_num)
      by_cases hgood : s1.all isDigit = true ∧ decimalValue 0 s1 < 18446744073709551616
      · have hpu : strconv.ParseUint (if c = 43 then rest else if c = 45 then rest
            else c :: rest) = (decimalValue 0 s1, none) := by
          rw [hs1, hpu0, hspec.1 hgood]
        rw [parsedID_cons c rest _ _ hpu (fun e he => by simp at he)]
        simp [hnil, hgood.1]
      · obtain ⟨v, e, hloop, he⟩ := hspec.2 hgood
        have hpu : strconv.ParseUint (if c = 43 then rest else if c = 45 then rest
            else c :: rest) = (v, some e) := by
          rw [hs1, hpu0, hloop]
        rw [parsedID_cons c rest _ _ hpu (fun e2 he2 => by
          simp only [Option.some.injEq] at he2
          subst he2
          exact he)]
        simp only [reduceCtorEq, if_false]
        by_cases hall : s1.all isDigit = true
        · have hbig : ¬ decimalValue 0 s1 < 18446744073709551616 := fun h => hgood ⟨hall, h⟩
          have h1 : ¬ decimalValue 0 s1 ≤ 9223372036854775808 := by omega
          have h2 : ¬ decimalValue 0 s1 < 9223372036854775808 := by omega
          simp [h1, h2]
        · simp [hall]

/-- The library algorithm agrees with the decimal numerals: `strconv.ParseInt` (base 10,
64 bits) returns no error exactly on an optional sign followed by one or more
decimal digits whose value lies in `[-2^63, 2^63 - 1]`, and it returns that value;
on every other string it returns an error. -/
theorem ParseInt_accepts_decimalInt64 (s : GoString) :
    (∀ n, strconv.ParseInt s = (n, none) ↔ decimalInt64 s = some n) ∧
    ((∃ e, (strconv.ParseInt s).2 = some e) ↔ decimalInt64 s = none) := by
  rw [← parsedID_eq_decimalInt64 s]
  unfold parsedID
  rcases strconv.ParseInt s with ⟨m, _ | e⟩
  · simp
  · simp

/-! ## Delivery: lemmas -/


theorem sendRequests_nil : sendRequests [] = [] := rfl

theorem sendRequests_append (a b : List Event) :
    sendRequests (a ++ b) = sendRequests a ++ sendRequests b := by
  simp [sendRequests, List.filterMap_append]

theorem sendRequests_cons_send (c : tgbotapi.PhotoConfig) (t : List Event) :
    sendRequests (Event.Send c :: t) = c :: sendRequests t := rfl

theorem sendRequests_cons_log (f : GoString) (a : List LogArg) (t : List Event) :
    sendRequests (Event.Log f a :: t) = sendRequests t := rfl

theorem sendRequests_cons_newBotAPI (tok : GoString) (t : List Event) :
    sendRequests (Event.NewBotAPI tok :: t) = sendRequests t := rfl

/-- The sends of the loop over the regular chats: the sends made before it, then
one request for each identifier that parses, in order, whatever the sends return. -/
theorem loop_sendRequests (w : World) (config : Config) (imageData : List UInt8)
    (ids : List GoString) :
    ∀ t, sendRequests (sendImageToChats.loop w config imageData ids t) =
      sendRequests t ++ (ids.filterMap parsedID).map (regularRequest config imageData) := by
  induction ids with
  | nil => intro t; simp [sendImageToChats.loop]
  | cons id rest ih =>
    intro t
    unfold sendImageToChats.loop
    rcases hp : strconv.ParseInt id with ⟨n, _ | e⟩
    · have hid : parsedID id = some n := by simp [parsedID, hp]
      simp only []
      cases hs : w.Send _ _ <;>
        simp [ih, sendRequests_append, sendRequests_cons_send, sendRequests_cons_log,
          sendRequests_nil, hid, regularRequest, tgbotapi.NewPhoto]
    · have hid : parsedID id = none := by simp [parsedID, hp]
      simp [ih, sendRequests_append, sendRequests_cons_log, sendRequests_nil, hid]

/-- When the client does not initialise, `sendImageToChats` returns that error,
wrapped, and does nothing else. -/
theorem sendImageToChats_init_error (w : World) (config : Config) (imageData : List UInt8)
    (fullPrompt : GoString) (t : List Event) (err : GoError)
    (h : w.NewBotAPI t config.TelegramBotToken = some err) :
    sendImageToChats w config imageData fullPrompt t =
      (.error (.wrap (lit "failed to create Telegram bot: ") err),
        t ++ [Event.NewBotAPI config.TelegramBotToken]) := by
  simp [sendImageToChats, h]

/-- Once the client has initialised, `sendImageToChats` returns no error. -/
theorem sendImageToChats_init_ok (w : World) (config : Config) (imageData : List UInt8)
    (fullPrompt : GoString) (t : List Event)
    (h : w.NewBotAPI t config.TelegramBotToken = none) :
    (sendImageToChats w config imageData fullPrompt t).1 = .ok () := by
  unfold sendImageToChats
  simp only [h]
  split
  · rcases strconv.ParseInt config.AdminChatID with ⟨n, _ | e⟩
    · simp only []
      cases w.Send _ _ <;> rfl
    · rfl
  · rfl

/-- Once the client has initialised, the sends of `sendImageToChats` are the sends
made before it, the regular requests and the admin requests, whatever the sends
return. -/
theorem sendImageToChats_sendRequests (w : World) (config : Config) (imageData : List UInt8)
    (fullPrompt : GoString) (t : List Event)
    (h : w.NewBotAPI t config.TelegramBotToken = none) :
    sendRequests (sendImageToChats w config imageData fullPrompt t).2 =
      sendRequests t ++ regularRequests config imageData ++
        adminRequests config imageData fullPrompt := by
  unfold sendImageToChats adminRequests regularRequests
  simp only [h]
  split
  · rcases hp : strconv.ParseInt config.AdminChatID with ⟨n, _ | e⟩
    · have hid : parsedID config.AdminChatID = some n := by simp [parsedID, hp]
      simp only []
      cases w.Send _ _ <;>
        simp [loop_sendRequests, sendRequests_append, sendRequests_cons_send,
          sendRequests_cons_log, sendRequests_cons_newBotAPI, sendRequests_nil, hid,
          adminRequest, tgbotapi.NewPhoto]
    · have hid : parsedID config.AdminChatID = none := by simp [parsedID, hp]
      simp [loop_sendRequests, sendRequests_append, sendRequests_cons_log,
        sendRequests_cons_newBotAPI, sendRequests_nil, hid]
  · simp [loop_sendRequests, sendRequests_append, sendRequests_cons_newBotAPI,
      sendRequests_nil]

/-! ## Delivery: what the history shows for each identifier -/

theorem handlings_nil : handlings [] = [] := rfl

theorem handlings_append (a b : List Event) :
    handlings (a ++ b) = handlings a ++ handlings b := by
  simp [handlings, List.filterMap_append]

theorem handlings_cons_send (c : tgbotapi.PhotoConfig) (t : List Event) :
    handlings (Event.Send c :: t) = Handling.sent c :: handlings t := rfl

theorem handlings_cons_newBotAPI (tok : GoString) (t : List Event) :
    handlings (Event.NewBotAPI tok :: t) = handlings t := rfl

theorem handlings_cons_invalid (chatIDStr : GoString) (err : strconv.NumError)
    (t : List Event) :
    handlings (Event.Log (lit "Invalid chat ID %s: %v") [.str chatIDStr, .numErr err] :: t) =
      Handling.skipped chatIDStr err :: handlings t := by
  simp [handlings]

theorem handlings_cons_invalid_admin (chatIDStr : GoString) (err : strconv.NumError)
    (t : List Event) :
    handlings (Event.Log (lit "Invalid admin chat ID %s: %v")
      [.str chatIDStr, .numErr err] :: t) = handlings t := by
  have hne : lit "Invalid admin chat ID %s: %v" ≠ lit "Invalid chat ID %s: %v" := by decide
  simp [handlings, hne]

theorem handlings_cons_log_int (f : GoString) (n : Int) (t : List Event) :
    handlings (Event.Log f [.int n] :: t) = handlings t := rfl

theorem handlings_cons_log_int_err (f : GoString) (n : Int) (err : GoError) (t : List Event) :
    handlings (Event.Log f [.int n, .err err] :: t) = handlings t := rfl

/-- The handlings of the loop over the regular chats: those shown before it, then one
for each identifier, in order: a send when it parses, the invalid-identifier line
when it does not, whatever the sends return. -/
theorem loop_handlings (w : World) (config : Config) (imageData : List UInt8)
    (ids : List GoString) :
    ∀ t, handlings (sendImageToChats.loop w config imageData ids t) =
      handlings t ++ ids.map (regularHandling config imageData) := by
  induction ids with
  | nil => intro t; simp [sendImageToChats.loop]
  | cons id rest ih =>
    intro t
    unfold sendImageToChats.loop
    rcases hp : strconv.ParseInt id with ⟨n, _ | e⟩
    · have hid : regularHandling config imageData id =
          .sent (regularRequest config imageData n) := by simp [regularHandling, hp]
      simp only []
      cases hs : w.Send _ _ <;>
        simp [ih, handlings_append, handlings_cons_send, handlings_cons_log_int,
          handlings_cons_log_int_err, handlings_nil, hid, regularRequest, tgbotapi.NewPhoto]
    · have hid : regularHandling config imageData id = .skipped id e := by
        simp [regularHandling, hp]
      simp [ih, handlings_append, handlings_cons_invalid, handlings_nil, hid]

/-- Once the client has initialised, the handlings of `sendImageToChats` are those
shown before it, one for each configured regular identifier, and the admin send
when there is one. -/
theorem sendImageToChats_handlings (w : World) (config : Config) (imageData : List UInt8)
    (fullPrompt : GoString) (t : List Event)
    (h : w.NewBotAPI t config.TelegramBotToken = none) :
    handlings (sendImageToChats w config imageData fullPrompt t).2 =
      handlings t ++ config.ChatIDs.map (regularHandling config imageData) ++
        (adminRequests config imageData fullPrompt).map Handling.sent := by
  unfold sendImageToChats adminRequests
  simp only [h]
  split
  · rcases hp : strconv.ParseInt config.AdminChatID with ⟨n, _ | e⟩
    · have hid : parsedID config.AdminChatID = some n := by simp [parsedID, hp]
      simp only []
      cases w.Send _ _ <;>
        simp [loop_handlings, handlings_append, handlings_cons_send, handlings_cons_log_int,
          handlings_cons_log_int_err, handlings_cons_newBotAPI, handlings_nil, hid,
          adminRequest, tgbotapi.NewPhoto]
    · have hid : parsedID config.AdminChatID = none := by simp [parsedID, hp]
      simp [loop_handlings, handlings_append, handlings_cons_invalid_admin,
        handlings_cons_newBotAPI, handlings_nil, hid]
  · simp [loop_handlings, handlings_append, handlings_cons_newBotAPI, handlings_nil]

/-! ## Delivery: the claims -/


/-- When every identifier of a list parses, the requests built from the parsed values
match the identifiers one for one, in order. -/
theorem parsed_requests_match_ids (config : Config) (imageData : List UInt8) (ids : List GoString) :
    (∀ s ∈ ids, parsedID s ≠ none) →
      List.Forall₂ (fun s c => parsedID s = some c.ChatID) ids
        ((ids.filterMap parsedID).map (regularRequest config imageData)) := by
  induction ids with
  | nil => intro _; exact List.Forall₂.nil
  | cons s rest ih =>
    intro hall
    have hs : parsedID s ≠ none := hall s (List.mem_cons_self _ _)
    obtain ⟨n, hn⟩ := Option.ne_none_iff_exists'.mp hs
    rw [List.filterMap_cons_some hn, List.map_cons]
    exact List.Forall₂.cons hn (ih (fun x hx => hall x (List.mem_cons_of_mem _ hx)))

/-- C4, as stated, fails: with regular identifiers `["100", "not-a-number", "200"]`,
no admin identifier and a world in which every call succeeds, the client
initialises and three identifiers are configured, yet only two sends are
attempted, to 100 and to 200: `"not-a-number"` does not parse and gets no send. -/
theorem sendImageToChats_no_send_for_unparsed_identifier :
    (World.allOk (lit "X") [0xff]).NewBotAPI [] skipScenario.TelegramBotToken = none ∧
    skipScenario.ChatIDs.length = 3 ∧
    parsedID (lit "not-a-number") = none ∧
    (sendRequests (sendImageToChats (World.allOk (lit "X") [0xff]) skipScenario [0xff]
      (lit "X") []).2).map (fun c => c.ChatID) = [100, 200] ∧
    (sendRequests (sendImageToChats (World.allOk (lit "X") [0xff]) skipScenario [0xff]
      (lit "X") []).2).length ≠ skipScenario.ChatIDs.length := by
  decide

/-- C4, amended: once the messaging client has initialised, whatever the sends
return, the destinations of the sends `sendImageToChats` attempts are, in order,
the values of the configured regular identifiers that parse (one send for each,
none for an identifier that does not parse), followed by the admin destination
when one is configured and parses. When every regular identifier parses and no
admin identifier is configured, the sends of the call match the configured
identifiers one for one, in list order. The history shows one handling for each
configured regular identifier, in list order: the send to the parsed id with the
regular caption when the identifier parses, the line `Invalid chat ID %s: %v` with
the identifier and its parse error, and no send, when it does not. -/
theorem sendImageToChats_one_send_per_parsed_identifier (w : World) (config : Config)
    (imageData : List UInt8) (fullPrompt : GoString) (t : List Event)
    (hinit : w.NewBotAPI t config.TelegramBotToken = none) :
    (sendRequests (sendImageToChats w config imageData fullPrompt t).2).map (fun c => c.ChatID) =
      (sendRequests t).map (fun c => c.ChatID) ++ config.ChatIDs.filterMap parsedID ++
        (adminRequests config imageData fullPrompt).map (fun c => c.ChatID) ∧
    ((∀ s ∈ config.ChatIDs, parsedID s ≠ none) → config.AdminChatID = [] →
      List.Forall₂ (fun s c => parsedID s = some c.ChatID) config.ChatIDs
        ((sendRequests (sendImageToChats w config imageData fullPrompt t).2).drop
          (sendRequests t).length)) ∧
    handlings (sendImageToChats w config imageData fullPrompt t).2 =
      handlings t ++
      config.ChatIDs.map (fun chatIDStr =>
        match strconv.ParseInt chatIDStr with
        | (chatID, none) =>
          Handling.sent
            { ChatID := chatID
              File := { Name := lit "buongiornissimo.jpg", Reader := imageData }
              Caption := truncateCaption config.MessageCaption }
        | (_, some err) => Handling.skipped chatIDStr err) ++
      (adminRequests config imageData fullPrompt).map Handling.sent := by
  have hsends := sendImageToChats_sendRequests w config imageData fullPrompt t hinit
  refine ⟨?_, ?_, ?_⟩
  · rw [hsends]
    simp [regularRequests, regularRequest, Function.comp_def]
  · intro hall hadmin
    have hnone : adminRequests config imageData fullPrompt = [] := by
      simp [adminRequests, hadmin]
    rw [hsends, hnone, List.append_nil, List.drop_left]
    exact parsed_requests_match_ids config imageData config.ChatIDs hall
  · rw [sendImageToChats_handlings w config imageData fullPrompt t hinit]
    rfl

/-- C4, amended, at a concrete input: every send fails, the identifiers are
`["100", "not-a-number", "200"]`; sends are still attempted to 100 and 200, and the
history shows, in order, the send to 100, the invalid-identifier line for
`"not-a-number"` with its syntax error, and the send to 200. -/
theorem sendImageToChats_one_send_per_parsed_identifier_witness :
    (World.sendsFail (lit "X") [0xff]).NewBotAPI [] skipScenario.TelegramBotToken = none ∧
    (sendRequests (sendImageToChats (World.sendsFail (lit "X") [0xff]) skipScenario [0xff]
      (lit "X") []).2).map (fun c => c.ChatID) = [100, 200] ∧
    handlings (sendImageToChats (World.sendsFail (lit "X") [0xff]) skipScenario [0xff]
      (lit "X") []).2 =
      [ Handling.sent (regularRequest skipScenario [0xff] 100),
        Handling.skipped (lit "not-a-number")
          { Func := lit "ParseInt", Num := lit "not-a-number", Err := .ErrSyntax },
        Handling.sent (regularRequest skipScenario [0xff] 200) ] := by
  have h := sendImageToChats_one_send_per_parsed_identifier (World.sendsFail (lit "X") [0xff])
    skipScenario [0xff] (lit "X") [] rfl
  refine ⟨rfl, ?_, ?_⟩
  · rw [h.1]
    decide
  · rw [h.2.2]
    decide

/-- C5: `sendImageToChats` returns an error exactly when the messaging client fails
to initialise, and it never panics. Once the client has initialised it returns no
error and the sends it attempts are all the regular and admin requests the
configuration calls for, whatever identifiers fail to parse and whatever the
sends return: no failure at a destination stops the destinations after it. -/
theorem sendImageToChats_error_iff_init_fails (w : World) (config : Config)
    (imageData : List UInt8) (fullPrompt : GoString) (t : List Event) :
    ((∃ err, (sendImageToChats w config imageData fullPrompt t).1 = .error err) ↔
      (∃ err, w.NewBotAPI t config.TelegramBotToken = some err)) ∧
    (sendImageToChats w config imageData fullPrompt t).1 ≠ .panic ∧
    (w.NewBotAPI t config.TelegramBotToken = none →
      (sendImageToChats w config imageData fullPrompt t).1 = .ok () ∧
      sendRequests (sendImageToChats w config imageData fullPrompt t).2 =
        sendRequests t ++ regularRequests config imageData ++
          adminRequests config imageData fullPrompt) := by
  cases hinit : w.NewBotAPI t config.TelegramBotToken with
  | none =>
    have hok := sendImageToChats_init_ok w config imageData fullPrompt t hinit
    refine ⟨?_, ?_, fun _ => ⟨hok, sendImageToChats_sendRequests w config imageData fullPrompt t hinit⟩⟩
    · rw [hok]; simp
    · rw [hok]; simp
  | some e =>
    have herr := sendImageToChats_init_error w config imageData fullPrompt t e hinit
    refine ⟨?_, ?_, fun h => by simp at h⟩
    · rw [herr]; simp
    · rw [herr]; simp

/-- C5 at a concrete input: the client initialises, every send fails, one
identifier does not parse; no error is returned and the sends go to 100 and 200. -/
theorem sendImageToChats_error_iff_init_fails_witness :
    (World.sendsFail (lit "X") [0xff]).NewBotAPI [] skipScenario.TelegramBotToken = none ∧
    (sendImageToChats (World.sendsFail (lit "X") [0xff]) skipScenario [0xff] (lit "X") []).1 =
      .ok () ∧
    sendRequests (sendImageToChats (World.sendsFail (lit "X") [0xff]) skipScenario [0xff]
      (lit "X") []).2 =
      [regularRequest skipScenario [0xff] 100, regularRequest skipScenario [0xff] 200] := by
  have h := (sendImageToChats_error_iff_init_fails (World.sendsFail (lit "X") [0xff])
    skipScenario [0xff] (lit "X") []).2.2 rfl
  refine ⟨rfl, h.1, ?_⟩
  rw [h.2]
  decide

/-- C8: once the messaging client has initialised, the sends `sendImageToChats`
attempts to regular destinations are, in configured order, one per identifier of
`config.ChatIDs` that is a base-10 signed 64-bit integer, each to the parsed numeric
id with the image and the caption `truncateCaption config.MessageCaption`; an
identifier that is not one adds no send and the identifiers after it are still
processed. The admin requests follow. -/
theorem sendImageToChats_regular_sends (w : World) (config : Config)
    (imageData : List UInt8) (fullPrompt : GoString) (t : List Event)
    (hinit : w.NewBotAPI t config.TelegramBotToken = none) :
    sendRequests (sendImageToChats w config imageData fullPrompt t).2 =
      sendRequests t ++
      (config.ChatIDs.filterMap decimalInt64).map (fun chatID =>
        { ChatID := chatID
          File := { Name := lit "buongiornissimo.jpg", Reader := imageData }
          Caption := truncateCaption config.MessageCaption }) ++
      adminRequests config imageData fullPrompt ∧
    (∀ before after bad, config.ChatIDs = before ++ bad :: after → decimalInt64 bad = none →
      sendRequests (sendImageToChats w config imageData fullPrompt t).2 =
        sendRequests t ++
        (before.filterMap decimalInt64 ++ after.filterMap decimalInt64).map (fun chatID =>
          { ChatID := chatID
            File := { Name := lit "buongiornissimo.jpg", Reader := imageData }
            Caption := truncateCaption config.MessageCaption }) ++
        adminRequests config imageData fullPrompt) := by
  have hparse : parsedID = decimalInt64 := funext parsedID_eq_decimalInt64
  have hsends : sendRequests (sendImageToChats w config imageData fullPrompt t).2 =
      sendRequests t ++
      (config.ChatIDs.filterMap decimalInt64).map (fun chatID =>
        { ChatID := chatID
          File := { Name := lit "buongiornissimo.jpg", Reader := imageData }
          Caption := truncateCaption config.MessageCaption }) ++
      adminRequests config imageData fullPrompt := by
    rw [sendImageToChats_sendRequests w config imageData fullPrompt t hinit, ← hparse]
    rfl
  refine ⟨hsends, ?_⟩
  intro before after bad hsplit hbad
  rw [hsends, hsplit, List.filterMap_append, List.filterMap_cons_none hbad]

/-- C8 at the scenario of the specification: regular identifiers
`["100", "not-a-number", "200"]`, no admin identifier, every call succeeds; the
sends go to 100 and then to 200, with the default caption, and no error is
returned. -/
theorem sendImageToChats_regular_sends_witness :
    (World.allOk (lit "X") [0xff]).NewBotAPI [] skipScenario.TelegramBotToken = none ∧
    sendRequests (sendImageToChats (World.allOk (lit "X") [0xff]) skipScenario [0xff]
      (lit "X") []).2 =
      [ { ChatID := 100
          File := { Name := lit "buongiornissimo.jpg", Reader := [0xff] }
          Caption := lit "Buongiornissimo ☕" },
        { ChatID := 200
          File := { Name := lit "buongiornissimo.jpg", Reader := [0xff] }
          Caption := lit "Buongiornissimo ☕" } ] ∧
    (sendImageToChats (World.allOk (lit "X") [0xff]) skipScenario [0xff] (lit "X") []).1 =
      .ok () := by
  refine ⟨rfl, ?_, by decide⟩
  rw [(sendImageToChats_regular_sends (World.allOk (lit "X") [0xff]) skipScenario [0xff]
    (lit "X") [] rfl).1]
  decide

/-! ## Admin delivery -/


/-- C9: once the messaging client has initialised, if an admin identifier is
configured and parses, `sendImageToChats` makes exactly one admin send, after the
loop over the regular chats has ended, to the parsed id, with the caption
`truncateCaption ("Generated with prompt: " ++ fullPrompt)`; if no admin identifier
is configured, or it does not parse, the only sends are the regular ones. -/
theorem sendImageToChats_admin_send (w : World) (config : Config)
    (imageData : List UInt8) (fullPrompt : GoString) (t : List Event)
    (hinit : w.NewBotAPI t config.TelegramBotToken = none) :
    (∀ adminChatID, config.AdminChatID ≠ [] → parsedID config.AdminChatID = some adminChatID →
      (∃ outcomeLog,
        (sendImageToChats w config imageData fullPrompt t).2 =
          sendImageToChats.loop w config imageData config.ChatIDs
            (t ++ [Event.NewBotAPI config.TelegramBotToken]) ++
          [ Event.Log (lit "Sending image to admin chat: %d") [.int adminChatID],
            Event.Send
              { ChatID := adminChatID
                File := { Name := lit "buongiornissimo.jpg", Reader := imageData }
                Caption := truncateCaption (lit "Generated with prompt: " ++ fullPrompt) },
            outcomeLog ] ∧
        sendRequests [outcomeLog] = []) ∧
      sendRequests (sendImageToChats w config imageData fullPrompt t).2 =
        sendRequests t ++ regularRequests config imageData ++
        [ { ChatID := adminChatID
            File := { Name := lit "buongiornissimo.jpg", Reader := imageData }
            Caption := truncateCaption (lit "Generated with prompt: " ++ fullPrompt) } ]) ∧
    ((config.AdminChatID = [] ∨ parsedID config.AdminChatID = none) →
      sendRequests (sendImageToChats w config imageData fullPrompt t).2 =
        sendRequests t ++ regularRequests config imageData) := by
  have hsends := sendImageToChats_sendRequests w config imageData fullPrompt t hinit
  constructor
  · intro adminChatID hne hid
    constructor
    · have hp : strconv.ParseInt config.AdminChatID = (adminChatID, none) := by
        unfold parsedID at hid
        rcases hq : strconv.ParseInt config.AdminChatID with ⟨n, _ | e⟩
        · rw [hq] at hid
          simp only [Option.some.injEq] at hid
          rw [hid]
        · rw [hq] at hid
          simp at hid
      unfold sendImageToChats
      simp only [hinit, hne, hp, ne_eq, not_false_eq_true, if_true]
      cases w.Send _ _ with
      | none =>
        exact ⟨Event.Log (lit "Successfully sent image to admin chat: %d") [.int adminChatID],
          by simp [tgbotapi.NewPhoto], rfl⟩
      | some err =>
        exact ⟨Event.Log (lit "Failed to send image to admin chat %d: %v")
          [.int adminChatID, .err err], by simp [tgbotapi.NewPhoto], rfl⟩
    · rw [hsends]
      simp [adminRequests, hne, hid, adminRequest]
  · intro h
    rw [hsends]
    rcases h with h | h
    · simp [adminRequests, h]
    · simp [adminRequests, h]

/-- C9 at the scenario of the specification: no regular identifier, admin identifier
`"999"`, prompt `"sunrise over coffee"`; exactly one send is made, to 999, with the
caption `"Generated with prompt: sunrise over coffee"`. -/
theorem sendImageToChats_admin_send_witness :
    (World.allOk (lit "sunrise over coffee") [0xff]).NewBotAPI []
      adminScenario.TelegramBotToken = none ∧
    adminScenario.ChatIDs = [] ∧
    adminScenario.AdminChatID ≠ [] ∧
    parsedID adminScenario.AdminChatID = some 999 ∧
    sendRequests (sendImageToChats (World.allOk (lit "sunrise over coffee") [0xff])
      adminScenario [0xff] (lit "sunrise over coffee") []).2 =
      [ { ChatID := 999
          File := { Name := lit "buongiornissimo.jpg", Reader := [0xff] }
          Caption := lit "Generated with prompt: sunrise over coffee" } ] := by
  have hne : adminScenario.AdminChatID ≠ [] := by decide
  have hid : parsedID adminScenario.AdminChatID = some 999 := by decide
  refine ⟨rfl, rfl, hne, hid, ?_⟩
  rw [((sendImageToChats_admin_send (World.allOk (lit "sunrise over coffee") [0xff])
    adminScenario [0xff] (lit "sunrise over coffee") [] rfl).1 999 hne hid).2]
  decide

/-! ## The generation stages and the run -/


/-- The events `generateImagePrompt` adds: the client creation and at most one call
to the text-generation service. -/
theorem generateImagePrompt_events (w : World) (config : Config) (t : List Event) :
    (generateImagePrompt w config t).2 = t ++ [Event.NewClient { APIKey := config.GeminiAPIKey }] ∨
    (generateImagePrompt w config t).2 = t ++ [Event.NewClient { APIKey := config.GeminiAPIKey },
      Event.GenerateContent config.TextModelID (promptRequest config)] := by
  unfold generateImagePrompt
  cases h : w.NewClient t { APIKey := config.GeminiAPIKey } with
  | some err => left; simp only [h]
  | none =>
    right
    simp only [h, promptRequest]
    repeat' split
    all_goals simp

/-- The events `generateImage` adds: the client creation and at most one call to the
image-generation service. -/
theorem generateImage_events (w : World) (config : Config) (prompt : GoString)
    (t : List Event) :
    (generateImage w config prompt t).2 = t ++ [Event.NewClient { APIKey := config.GeminiAPIKey }] ∨
    (generateImage w config prompt t).2 = t ++ [Event.NewClient { APIKey := config.GeminiAPIKey },
      Event.GenerateImages config.ImageModelID (imageRequest prompt) { NumberOfImages := 1 }] := by
  unfold generateImage
  cases h : w.NewClient t { APIKey := config.GeminiAPIKey } with
  | some err => left; simp only [h]
  | none =>
    right
    simp only [h, imageRequest]
    repeat' split
    all_goals simp

/-- With zero candidates in the response, `generateImagePrompt` returns the error
`no content generated` after the client creation and the one text call. -/
theorem generateImagePrompt_zero_candidates (w : World) (config : Config) (t : List Event)
    (resp : genai.GenerateContentResponse)
    (hclient : w.NewClient t { APIKey := config.GeminiAPIKey } = none)
    (hresp : w.GenerateContent (t ++ [Event.NewClient { APIKey := config.GeminiAPIKey }])
      config.TextModelID (promptRequest config) = .ok resp)
    (hzero : resp.Candidates = []) :
    generateImagePrompt w config t =
      (.error (.mk (lit "no content generated")),
        t ++ [Event.NewClient { APIKey := config.GeminiAPIKey }] ++
          [Event.GenerateContent config.TextModelID (promptRequest config)]) := by
  unfold generateImagePrompt
  simp only [hclient]
  unfold promptRequest at hresp ⊢
  simp only [hresp, hzero]

/-- With zero images in the response, `generateImage` returns the error
`no image generated` after the client creation and the one image call. -/
theorem generateImage_zero_images (w : World) (config : Config) (prompt : GoString)
    (t : List Event) (resp : genai.GenerateImagesResponse)
    (hclient : w.NewClient t { APIKey := config.GeminiAPIKey } = none)
    (hresp : w.GenerateImages (t ++ [Event.NewClient { APIKey := config.GeminiAPIKey }])
      config.ImageModelID (imageRequest prompt) { NumberOfImages := 1 } = .ok resp)
    (hzero : resp.GeneratedImages = []) :
    generateImage w config prompt t =
      (.error (.mk (lit "no image generated")),
        t ++ [Event.NewClient { APIKey := config.GeminiAPIKey }] ++
          [Event.GenerateImages config.ImageModelID (imageRequest prompt)
            { NumberOfImages := 1 }]) := by
  unfold generateImage
  simp only [hclient]
  unfold imageRequest at hresp ⊢
  simp only [hresp, hzero]

/-- The events of the prompt stage, as the run starts it: the start line and the
calls of the stage, none of them a call to the image service or a delivery call. -/
theorem prompt_stage_events (w : World) (config : Config) (t : List Event) :
    ∃ new, (generateImagePrompt w config (t ++ [startLog config])).2 = t ++ new ∧
      ∀ ev ∈ new, ev.isImageCall = false ∧ ev.isDeliveryCall = false := by
  rcases generateImagePrompt_events w config (t ++ [startLog config]) with h | h
  · refine ⟨_, by rw [h, List.append_assoc], ?_⟩
    intro ev hev
    simp only [startLog, List.singleton_append, List.mem_cons, List.mem_singleton,
      List.not_mem_nil, or_false] at hev
    rcases hev with rfl | rfl <;> exact ⟨rfl, rfl⟩
  · refine ⟨_, by rw [h, List.append_assoc], ?_⟩
    intro ev hev
    simp only [startLog, List.singleton_append, List.mem_cons, List.mem_singleton,
      List.not_mem_nil, or_false] at hev
    rcases hev with rfl | rfl | rfl <;> exact ⟨rfl, rfl⟩

/-- The events of the image stage, as the run starts it after a prompt stage that
ended with the history `t1`: the prompt line and the calls of the stage, none of
them a delivery call. -/
theorem image_stage_events (w : World) (config : Config) (prompt : GoString)
    (t1 : List Event) :
    ∃ new, (generateImage w config prompt (t1 ++ [promptLog prompt])).2 = t1 ++ new ∧
      ∀ ev ∈ new, ev.isDeliveryCall = false := by
  rcases generateImage_events w config prompt (t1 ++ [promptLog prompt]) with h | h
  · refine ⟨_, by rw [h, List.append_assoc], ?_⟩
    intro ev hev
    simp only [promptLog, List.singleton_append, List.mem_cons, List.mem_singleton,
      List.not_mem_nil, or_false] at hev
    rcases hev with rfl | rfl <;> rfl
  · refine ⟨_, by rw [h, List.append_assoc], ?_⟩
    intro ev hev
    simp only [promptLog, List.singleton_append, List.mem_cons, List.mem_singleton,
      List.not_mem_nil, or_false] at hev
    rcases hev with rfl | rfl | rfl <;> rfl

/-- The run when the prompt stage returns an error. -/
theorem run_of_prompt_error (w : World) (config : Config) (t t1 : List Event) (err : GoError)
    (h : generateImagePrompt w config (t ++ [startLog config]) = (.error err, t1)) :
    runBuongiornissimoBot w config t =
      (.error (.wrap (lit "failed to generate image prompt: ") err), t1) := by
  unfold startLog at h
  simp only [] at h
  unfold runBuongiornissimoBot
  simp only [h]

/-- The run when the prompt stage succeeds and the image stage returns an error. -/
theorem run_of_image_error (w : World) (config : Config) (t t1 t3 : List Event)
    (prompt : GoString) (err : GoError)
    (hp : generateImagePrompt w config (t ++ [startLog config]) = (.ok prompt, t1))
    (hi : generateImage w config prompt (t1 ++ [promptLog prompt]) = (.error err, t3)) :
    runBuongiornissimoBot w config t =
      (.error (.wrap (lit "failed to generate image: ") err), t3) := by
  unfold startLog at hp
  unfold promptLog at hi
  simp only [] at hp
  unfold runBuongiornissimoBot
  simp only [hp, hi]

/-- The run when both generation stages succeed: its result is that of
`sendImageToChats`, wrapped when it is an error. -/
theorem run_of_image_ok (w : World) (config : Config) (t t1 t3 : List Event)
    (prompt : GoString) (imageData : List UInt8)
    (hp : generateImagePrompt w config (t ++ [startLog config]) = (.ok prompt, t1))
    (hi : generateImage w config prompt (t1 ++ [promptLog prompt]) = (.ok imageData, t3)) :
    (runBuongiornissimoBot w config t).1 =
      match (sendImageToChats w config imageData prompt (t3 ++ [imageLog imageData])).1 with
      | .panic => .panic
      | .error err => .error (.wrap (lit "failed to send images: ") err)
      | .ok _ => .ok () := by
  unfold startLog at hp
  unfold promptLog at hi
  unfold imageLog
  simp only [] at hp
  unfold runBuongiornissimoBot
  simp only [hp, hi]
  rcases sendImageToChats w config imageData prompt _ with ⟨_ | _ | _, t5⟩ <;> rfl

/-! ## The run: the claims -/


/-- C6: `runBuongiornissimoBot` is fail-fast over its generation stages. If the prompt
stage returns an error, the run ends where the prompt stage ended and returns that
error under the message `failed to generate image prompt: `; the events of the
run hold no call to the image service and no delivery call. If the prompt stage
succeeds and the image stage returns an error, the run ends where the image stage
ended and returns that error under the message `failed to generate image: `; the
events of the run hold no delivery call. A text response with zero candidates is
such a failure of the prompt stage, an image response with zero images such a
failure of the image stage. -/
theorem runBuongiornissimoBot_fail_fast (w : World) (config : Config) (t : List Event) :
    (∀ err t1, generateImagePrompt w config (t ++ [startLog config]) = (.error err, t1) →
      runBuongiornissimoBot w config t =
        (.error (.wrap (lit "failed to generate image prompt: ") err), t1) ∧
      (GoError.wrap (lit "failed to generate image prompt: ") err).Error =
        lit "failed to generate image prompt: " ++ err.Error ∧
      ∃ new, (runBuongiornissimoBot w config t).2 = t ++ new ∧
        ∀ ev ∈ new, ev.isImageCall = false ∧ ev.isDeliveryCall = false) ∧
    (∀ prompt t1 err t3,
      generateImagePrompt w config (t ++ [startLog config]) = (.ok prompt, t1) →
      generateImage w config prompt (t1 ++ [promptLog prompt]) = (.error err, t3) →
      runBuongiornissimoBot w config t =
        (.error (.wrap (lit "failed to generate image: ") err), t3) ∧
      (GoError.wrap (lit "failed to generate image: ") err).Error =
        lit "failed to generate image: " ++ err.Error ∧
      ∃ new, (runBuongiornissimoBot w config t).2 = t ++ new ∧
        ∀ ev ∈ new, ev.isDeliveryCall = false) ∧
    (∀ resp, w.NewClient (t ++ [startLog config]) { APIKey := config.GeminiAPIKey } = none →
      w.GenerateContent (t ++ [startLog config] ++
          [Event.NewClient { APIKey := config.GeminiAPIKey }])
        config.TextModelID (promptRequest config) = .ok resp →
      resp.Candidates = [] →
      runBuongiornissimoBot w config t =
        (.error (.wrap (lit "failed to generate image prompt: ")
            (.mk (lit "no content generated"))),
          t ++ [startLog config] ++ [Event.NewClient { APIKey := config.GeminiAPIKey }] ++
            [Event.GenerateContent config.TextModelID (promptRequest config)])) ∧
    (∀ prompt t1 resp,
      generateImagePrompt w config (t ++ [startLog config]) = (.ok prompt, t1) →
      w.NewClient (t1 ++ [promptLog prompt]) { APIKey := config.GeminiAPIKey } = none →
      w.GenerateImages (t1 ++ [promptLog prompt] ++
          [Event.NewClient { APIKey := config.GeminiAPIKey }])
        config.ImageModelID (imageRequest prompt) { NumberOfImages := 1 } = .ok resp →
      resp.GeneratedImages = [] →
      runBuongiornissimoBot w config t =
        (.error (.wrap (lit "failed to generate image: ") (.mk (lit "no image generated"))),
          t1 ++ [promptLog prompt] ++ [Event.NewClient { APIKey := config.GeminiAPIKey }] ++
            [Event.GenerateImages config.ImageModelID (imageRequest prompt)
              { NumberOfImages := 1 }])) := by
  refine ⟨?_, ?_, ?_, ?_⟩
  · intro err t1 hp
    have hrun := run_of_prompt_error w config t t1 err hp
    refine ⟨hrun, rfl, ?_⟩
    obtain ⟨new, hnew, hev⟩ := prompt_stage_events w config t
    rw [hp] at hnew
    exact ⟨new, by rw [hrun]; exact hnew, hev⟩
  · intro prompt t1 err t3 hp hi
    have hrun := run_of_image_error w config t t1 t3 prompt err hp hi
    refine ⟨hrun, rfl, ?_⟩
    obtain ⟨n1, hn1, hev1⟩ := prompt_stage_events w config t
    obtain ⟨n3, hn3, hev3⟩ := image_stage_events w config prompt t1
    rw [hp] at hn1
    rw [hi] at hn3
    refine ⟨n1 ++ n3, ?_, ?_⟩
    · rw [hrun]
      show t3 = t ++ (n1 ++ n3)
      rw [← List.append_assoc]
      exact hn3.trans (by rw [show t1 = t ++ n1 from hn1])
    · intro ev hev
      rcases List.mem_append.mp hev with h | h
      · exact (hev1 ev h).2
      · exact hev3 ev h
  · intro resp hclient hresp hzero
    exact run_of_prompt_error w config t _ _
      (generateImagePrompt_zero_candidates w config _ resp hclient hresp hzero)
  · intro prompt t1 resp hp hclient hresp hzero
    exact run_of_image_error w config t t1 _ prompt _ hp
      (generateImage_zero_images w config prompt _ resp hclient hresp hzero)

/-- C6 at concrete inputs: a text response with zero candidates ends the run with an
error of the prompt stage, after the start line, the client creation and the text
call only; an image response with zero images ends the run with an error of the
image stage, and no send request was made. -/
theorem runBuongiornissimoBot_fail_fast_witness :
    (runBuongiornissimoBot (World.textAnswers { Candidates := [] }) skipScenario []).1 =
      .error (.wrap (lit "failed to generate image prompt: ")
        (.mk (lit "no content generated"))) ∧
    (runBuongiornissimoBot (World.textAnswers { Candidates := [] }) skipScenario []).2 =
      [ startLog skipScenario,
        Event.NewClient { APIKey := skipScenario.GeminiAPIKey },
        Event.GenerateContent skipScenario.TextModelID (promptRequest skipScenario) ] ∧
    (runBuongiornissimoBot (World.imageAnswers (lit "X") { GeneratedImages := [] })
      skipScenario []).1 =
      .error (.wrap (lit "failed to generate image: ") (.mk (lit "no image generated"))) ∧
    sendRequests (runBuongiornissimoBot (World.imageAnswers (lit "X") { GeneratedImages := [] })
      skipScenario []).2 = [] := by
  refine ⟨?_, by decide, ?_, by decide⟩
  · exact congrArg Prod.fst ((runBuongiornissimoBot_fail_fast (World.textAnswers { Candidates := [] })
      skipScenario []).1 (.mk (lit "no content generated"))
      (generateImagePrompt (World.textAnswers { Candidates := [] }) skipScenario
        ([] ++ [startLog skipScenario])).2 (by decide)).1
  · exact congrArg Prod.fst ((runBuongiornissimoBot_fail_fast
      (World.imageAnswers (lit "X") { GeneratedImages := [] }) skipScenario []).2.1 (lit "X")
      (generateImagePrompt (World.imageAnswers (lit "X") { GeneratedImages := [] }) skipScenario
        ([] ++ [startLog skipScenario])).2
      (.mk (lit "no image generated"))
      (generateImage (World.imageAnswers (lit "X") { GeneratedImages := [] }) skipScenario
        (lit "X")
        ((generateImagePrompt (World.imageAnswers (lit "X") { GeneratedImages := [] })
          skipScenario ([] ++ [startLog skipScenario])).2 ++ [promptLog (lit "X")])).2
      (by decide) (by decide)).1

/-- C7: if the prompt stage and the image stage both succeed and the messaging client
initialises, `runBuongiornissimoBot` returns no error, whatever the sends return and
whatever identifiers fail to parse. -/
theorem runBuongiornissimoBot_success (w : World) (config : Config) (t t1 t3 : List Event)
    (prompt : GoString) (imageData : List UInt8)
    (hp : generateImagePrompt w config (t ++ [startLog config]) = (.ok prompt, t1))
    (hi : generateImage w config prompt (t1 ++ [promptLog prompt]) = (.ok imageData, t3))
    (hinit : w.NewBotAPI (t3 ++ [imageLog imageData]) config.TelegramBotToken = none) :
    (runBuongiornissimoBot w config t).1 = .ok () := by
  rw [run_of_image_ok w config t t1 t3 prompt imageData hp hi,
    sendImageToChats_init_ok w config imageData prompt _ hinit]

/-- C7 at the corner case of the specification: both stages succeed, the client
initialises, no admin identifier is configured and every send fails; the run still
returns no error, and the sends were attempted. -/
theorem runBuongiornissimoBot_success_witness :
    skipScenario.AdminChatID = [] ∧
    (∀ h c, (World.sendsFail (lit "X") [0xff]).Send h c = some (.mk (lit "transport error"))) ∧
    (runBuongiornissimoBot (World.sendsFail (lit "X") [0xff]) skipScenario []).1 = .ok () ∧
    (sendRequests (runBuongiornissimoBot (World.sendsFail (lit "X") [0xff]) skipScenario
      []).2).map (fun c => c.ChatID) = [100, 200] := by
  refine ⟨rfl, fun _ _ => rfl, ?_, by decide⟩
  exact runBuongiornissimoBot_success (World.sendsFail (lit "X") [0xff]) skipScenario []
    (generateImagePrompt (World.sendsFail (lit "X") [0xff]) skipScenario
      ([] ++ [startLog skipScenario])).2
    (generateImage (World.sendsFail (lit "X") [0xff]) skipScenario (lit "X")
      ((generateImagePrompt (World.sendsFail (lit "X") [0xff]) skipScenario
        ([] ++ [startLog skipScenario])).2 ++ [promptLog (lit "X")])).2
    (lit "X") [0xff] (by decide) (by decide) rfl

/-- C10, the failing input: a successful text-generation call whose response has one
candidate without content. The specification asks for the error
`no content generated`; `generateImagePrompt` does not return: reading
`resp.Candidates[0].Content.Parts` dereferences the nil content and the call
panics, and so does the run. The same happens when the first part is a nil pointer. -/
theorem generateImagePrompt_panics_on_absent_content :
    expectedPromptResult absentContentResponse = .error (.mk (lit "no content generated")) ∧
    (generateImagePrompt (World.textAnswers absentContentResponse) skipScenario []).1 =
      .panic ∧
    (runBuongiornissimoBot (World.textAnswers absentContentResponse) skipScenario []).1 =
      .panic ∧
    (generateImagePrompt
      (World.textAnswers { Candidates := [some { Content := some { Parts := [none], Role := [] } }] })
      skipScenario []).1 = .panic := by
  decide

/-! ## Further properties -/

/-- When no nil pointer lies on the path it reads, `generateImagePrompt` answers a
successful text-generation call with the result the specification words: one of
the two errors or the text of the first part of the first candidate. -/
theorem generateImagePrompt_result_of_present (w : World) (config : Config) (t : List Event)
    (resp : genai.GenerateContentResponse)
    (hclient : w.NewClient t { APIKey := config.GeminiAPIKey } = none)
    (hresp : w.GenerateContent (t ++ [Event.NewClient { APIKey := config.GeminiAPIKey }])
      config.TextModelID (promptRequest config) = .ok resp)
    (hpresent : pointersPresent resp = true) :
    (generateImagePrompt w config t).1 = expectedPromptResult resp ∧
    ((generateImagePrompt w config t).1 = .error (.mk (lit "no content generated")) ∨
      (generateImagePrompt w config t).1 = .error (.mk (lit "unexpected response format")) ∨
      ∃ part rest, firstCandidateParts resp = some part :: rest ∧ part.Text ≠ [] ∧
        (generateImagePrompt w config t).1 = .ok part.Text) := by
  unfold promptRequest at hresp
  have hrun : (generateImagePrompt w config t).1 = expectedPromptResult resp := by
    unfold generateImagePrompt
    simp only [hclient, hresp]
    unfold expectedPromptResult firstCandidateParts
    unfold pointersPresent at hpresent
    rcases resp with ⟨cands⟩
    rcases cands with _ | ⟨_ | ⟨⟨_ | ⟨parts, role⟩⟩⟩, cs⟩
    · rfl
    · simp at hpresent
    · simp at hpresent
    · rcases parts with _ | ⟨_ | part, ps⟩
      · rfl
      · simp at hpresent
      · by_cases htext : part.Text = []
        · simp [htext]
        · simp [htext]
  refine ⟨hrun, ?_⟩
  rw [hrun]
  unfold expectedPromptResult
  rcases hparts : firstCandidateParts resp with _ | ⟨_ | part, ps⟩
  · left; rfl
  · right; left; rfl
  · by_cases htext : part.Text = []
    · right; left; simp [htext]
    · right; right
      exact ⟨part, ps, rfl, htext, by simp [htext]⟩

/-- The three results at concrete responses: zero candidates, a first candidate with
zero parts, a first part with empty text, a first part with text. -/
theorem generateImagePrompt_result_of_present_witness :
    (generateImagePrompt (World.textAnswers { Candidates := [] }) skipScenario []).1 =
      .error (.mk (lit "no content generated")) ∧
    (generateImagePrompt (World.textAnswers
      { Candidates := [some { Content := some { Parts := [], Role := [] } }] })
      skipScenario []).1 = .error (.mk (lit "no content generated")) ∧
    (generateImagePrompt (World.textAnswers
      { Candidates := [some { Content := some { Parts := [some { Text := [] }], Role := [] } }] })
      skipScenario []).1 = .error (.mk (lit "unexpected response format")) ∧
    (generateImagePrompt (World.allOk (lit "X") [0xff]) skipScenario []).1 = .ok (lit "X") := by
  refine ⟨?_, by decide, by decide, by decide⟩
  exact (generateImagePrompt_result_of_present (World.textAnswers { Candidates := [] })
    skipScenario [] { Candidates := [] } rfl rfl rfl).1

/-- Once the messaging client has initialised, every send request `sendImageToChats`
makes carries a caption of at most 1024 bytes and the whole image under the file
name `buongiornissimo.jpg`. -/
theorem sendImageToChats_requests_bounded (w : World) (config : Config)
    (imageData : List UInt8) (fullPrompt : GoString) (t : List Event)
    (hinit : w.NewBotAPI t config.TelegramBotToken = none) :
    ∃ new, sendRequests (sendImageToChats w config imageData fullPrompt t).2 =
        sendRequests t ++ new ∧
      ∀ c ∈ new, c.Caption.length ≤ 1024 ∧
        c.File = { Name := lit "buongiornissimo.jpg", Reader := imageData } := by
  refine ⟨regularRequests config imageData ++ adminRequests config imageData fullPrompt, ?_, ?_⟩
  · rw [sendImageToChats_sendRequests w config imageData fullPrompt t hinit,
      List.append_assoc]
  · intro c hc
    rcases List.mem_append.mp hc with hc | hc
    · unfold regularRequests at hc
      obtain ⟨chatID, _, rfl⟩ := List.mem_map.mp hc
      exact ⟨truncateCaption_length_le _, rfl⟩
    · unfold adminRequests at hc
      split at hc
      · split at hc
        · rw [List.mem_singleton] at hc
          subst hc
          exact ⟨truncateCaption_length_le _, rfl⟩
        · simp at hc
      · simp at hc

/-- A prompt of 2000 bytes: the admin caption would have 2023 bytes and is sent cut
to 1024. -/
theorem sendImageToChats_requests_bounded_witness :
    (World.allOk [] [0xff]).NewBotAPI [] adminScenario.TelegramBotToken = none ∧
    (lit "Generated with prompt: " ++ List.replicate 2000 (97 : UInt8)).length = 2023 ∧
    ∃ new, sendRequests (sendImageToChats (World.allOk [] [0xff]) adminScenario [0xff]
        (List.replicate 2000 97) []).2 = sendRequests [] ++ new ∧
      ∀ c ∈ new, c.Caption.length ≤ 1024 ∧
        c.File = { Name := lit "buongiornissimo.jpg", Reader := [0xff] } :=
  ⟨rfl, by rw [List.length_append, List.length_replicate]; decide,
    sendImageToChats_requests_bounded (World.allOk [] [0xff]) adminScenario [0xff]
      (List.replicate 2000 97) [] rfl⟩

end Buongiornissimo
